import Mathlib

/-!
Verification of the chart-builder core of the D3 tutorial repository:
the value parser, CSV/TSV parser, column type inferrer (`DataManager`,
src/unnamed/part_009), the drag-and-drop mapping validator
(`DragDropManager.validateMapping`, src/unnamed/part_010), and the
specification builder (`SpecBuilder`, src/unnamed/part_009).

JavaScript numbers are modelled exactly: a `JSNum` is a rational, an
infinity, or NaN.  All quantities appearing in the verified claims are
small integers or short decimal literals, for which the rational model
agrees with IEEE doubles.  `Date` objects are modelled by the source
string they were constructed from; the inferrer only tests `instanceof
Date`, so no calendar arithmetic is needed.  String operations are
carried out on the underlying character lists so that every definition
evaluates by kernel reduction.
-/

/-- Fuel-driven Euclidean gcd; with fuel at least `x + 1` it computes
`Nat.gcd x y` by kernel reduction alone. -/
def natGcdF : ℕ → ℕ → ℕ → ℕ
  | 0, _, y => y
  | _ + 1, 0, y => y
  | fuel + 1, x + 1, y => natGcdF fuel (y % (x + 1)) (x + 1)

/-- Euclidean gcd, kernel-reducible. -/
def natGcd (x y : ℕ) : ℕ := natGcdF (x + 1) x y

/-- An exact rational with positive denominator.  Every value built by the
development goes through `mkJSRat`, so representation equality is value
equality. -/
structure JSRat where
  num : ℤ
  den : ℕ
deriving DecidableEq

/-- Normalized fraction constructor (the denominator is never 0 here). -/
def mkJSRat (n : ℤ) (d : ℕ) : JSRat :=
  let g := natGcd n.natAbs d
  if g = 0 then ⟨0, 1⟩ else ⟨n / (g : ℤ), d / g⟩

/-- A JavaScript number: finite (exact rational model), ±Infinity, or NaN. -/
inductive JSNum where
  | fin (q : JSRat)
  | inf
  | negInf
  | nan
deriving DecidableEq

/-- The finite JS number given by an integer. -/
def JSNum.ofInt (n : ℤ) : JSNum := JSNum.fin ⟨n, 1⟩

/-- A parsed cell value: JS `null`, a number, a string, or a `Date` object
(remembered by the string it was built from). -/
inductive JSValue where
  | null
  | num (v : JSNum)
  | str (s : String)
  | date (s : String)
deriving DecidableEq

/-- The double-quote character. -/
def dquoteChar : Char := '"'

/-- The single-quote character (written via its code point). -/
def squoteChar : Char := Char.ofNat 39

/-- `String.prototype.trim` on a character list (ASCII whitespace). -/
def trimChars (cs : List Char) : List Char :=
  ((cs.dropWhile Char.isWhitespace).reverse.dropWhile Char.isWhitespace).reverse

/-- `split('\n')`: splits on newline characters, keeping empty segments. -/
def splitLines : List Char → List (List Char)
  | [] => [[]]
  | c :: rest =>
    if c == '\n' then [] :: splitLines rest
    else
      match splitLines rest with
      | l :: ls => (c :: l) :: ls
      | [] => [[c]]

/-- `startsWith(q) && endsWith(q)` for a single character `q`. -/
def wrappedIn (q : Char) (cs : List Char) : Bool :=
  match cs, cs.getLast? with
  | c :: _, some l => c == q && l == q
  | _, _ => false

/-- `DataManager.parseValue`, quote stripping step: `value.slice(1, -1)`
when the value both starts and ends with the same quote character. -/
def stripQuotes (cs : List Char) : List Char :=
  if wrappedIn dquoteChar cs || wrappedIn squoteChar cs then (cs.drop 1).dropLast
  else cs

/-- Numeric value of a list of decimal digits (leading zeros allowed). -/
def digitsVal (cs : List Char) : ℕ :=
  cs.foldl (fun a c => a * 10 + (c.toNat - 48)) 0

/-- Longest prefix of decimal digits, with the remainder. -/
def takeDigits (cs : List Char) : List Char × List Char :=
  (cs.takeWhile Char.isDigit, cs.dropWhile Char.isDigit)

/-- Value of a hexadecimal digit, if it is one. -/
def hexDigitVal (c : Char) : Option ℕ :=
  if c.isDigit then some (c.toNat - 48)
  else if 'a' ≤ c && c ≤ 'f' then some (c.toNat - 87)
  else if 'A' ≤ c && c ≤ 'F' then some (c.toNat - 55)
  else none

/-- Digits of a non-decimal integer literal (`0x…`, `0o…`, `0b…`) in the
given radix, as in JS `Number` string coercion: the digit list must be
non-empty and every digit valid, else NaN. -/
def parseRadix (radix : ℕ) (cs : List Char) : JSNum :=
  if cs.isEmpty then JSNum.nan
  else if cs.all (fun c => match hexDigitVal c with
                           | some d => decide (d < radix)
                           | none => false) then
    JSNum.ofInt (cs.foldl (fun a c => a * radix + ((hexDigitVal c).getD 0)) 0 : ℕ)
  else JSNum.nan

/-- Exact value of a decimal literal: integer digits, fraction digits,
decimal exponent. -/
def decValue (ip fp : List Char) (e : ℤ) : JSRat :=
  let m : ℤ := (digitsVal ip * 10 ^ fp.length + digitsVal fp : ℕ)
  if 0 ≤ e then mkJSRat (m * 10 ^ e.toNat) (10 ^ fp.length)
  else mkJSRat m (10 ^ fp.length * 10 ^ (-e).toNat)

/-- Parse an optional `ExponentPart` (`e`/`E`, optional sign, digits);
if no well-formed exponent follows, consume nothing. -/
def parseExponent (cs : List Char) : Int × List Char :=
  match cs with
  | c :: rest =>
    if c == 'e' || c == 'E' then
      match rest with
      | s :: rest2 =>
        if s == '+' || s == '-' then
          let ds := (takeDigits rest2).1
          if ds.isEmpty then (0, cs)
          else (if s == '-' then -(digitsVal ds : Int) else (digitsVal ds : Int),
                (takeDigits rest2).2)
        else
          let ds := (takeDigits rest).1
          if ds.isEmpty then (0, cs) else ((digitsVal ds : Int), (takeDigits rest).2)
      | [] => (0, cs)
    else (0, cs)
  | [] => (0, cs)

/-- Parse the longest prefix that is an unsigned `StrDecimalLiteral`
(`Infinity`, `digits[.digits][exp]`, or `.digits[exp]`), returning its
value and the remaining characters; `none` if no such prefix exists. -/
def parseUnsignedDec (cs : List Char) : Option (JSNum × List Char) :=
  if cs.take 8 == "Infinity".data then some (JSNum.inf, cs.drop 8)
  else
    let ip := (takeDigits cs).1
    match (takeDigits cs).2 with
    | '.' :: r2 =>
      let fp := (takeDigits r2).1
      if ip.isEmpty && fp.isEmpty then none
      else
        let er := parseExponent (takeDigits r2).2
        some (JSNum.fin (decValue ip fp er.1), er.2)
    | r1 =>
      if ip.isEmpty then none
      else
        let er := parseExponent r1
        some (JSNum.fin (decValue ip [] er.1), er.2)

/-- Negation on JS numbers. -/
def negJSNum : JSNum → JSNum
  | JSNum.fin q => JSNum.fin ⟨-q.num, q.den⟩
  | JSNum.inf => JSNum.negInf
  | JSNum.negInf => JSNum.inf
  | JSNum.nan => JSNum.nan

/-- Parse the longest prefix that is a signed `StrDecimalLiteral`. -/
def parseSignedDec (cs : List Char) : Option (JSNum × List Char) :=
  match cs with
  | '+' :: rest => parseUnsignedDec rest
  | '-' :: rest => (parseUnsignedDec rest).map (fun p => (negJSNum p.1, p.2))
  | _ => parseUnsignedDec cs

/-- A full-string signed decimal literal, else NaN. -/
def jsFullDecimal (cs : List Char) : JSNum :=
  match parseSignedDec cs with
  | some (v, []) => v
  | _ => JSNum.nan

/-- JS `Number(string)` coercion (ECMA `StringNumericLiteral`): trimmed
empty string is 0; `0x`/`0o`/`0b` radix literals; otherwise the whole
trimmed string must be a signed decimal literal, else NaN. -/
def jsNumber (s : String) : JSNum :=
  match trimChars s.data with
  | [] => JSNum.ofInt 0
  | '0' :: c :: rest =>
    if c == 'x' || c == 'X' then parseRadix 16 rest
    else if c == 'o' || c == 'O' then parseRadix 8 rest
    else if c == 'b' || c == 'B' then parseRadix 2 rest
    else jsFullDecimal ('0' :: c :: rest)
  | t => jsFullDecimal t

/-- JS global `parseFloat`: skip leading whitespace, then the longest
prefix that is a signed decimal literal; NaN if there is none. -/
def parseFloat (s : String) : JSNum :=
  match parseSignedDec (s.data.dropWhile Char.isWhitespace) with
  | some (v, _) => v
  | none => JSNum.nan

/-- `isNaN` on an already-coerced JS number. -/
def jsIsNaN : JSNum → Bool
  | JSNum.nan => true
  | _ => false

/-- `YYYY-MM-DD` pattern of `DataManager.isDate`. -/
def matchesYMD (cs : List Char) : Bool :=
  match cs with
  | [a, b, c, d, '-', e, f, '-', g, h] => [a, b, c, d, e, f, g, h].all Char.isDigit
  | _ => false

/-- `MM/DD/YYYY` pattern of `DataManager.isDate`. -/
def matchesMDYSlash (cs : List Char) : Bool :=
  match cs with
  | [a, b, '/', c, d, '/', e, f, g, h] => [a, b, c, d, e, f, g, h].all Char.isDigit
  | _ => false

/-- `MM-DD-YYYY` pattern of `DataManager.isDate`. -/
def matchesMDYDash (cs : List Char) : Bool :=
  match cs with
  | [a, b, '-', c, d, '-', e, f, g, h] => [a, b, c, d, e, f, g, h].all Char.isDigit
  | _ => false

/-- `DataManager.isDate`: the value matches one of the three date patterns. -/
def isDate (s : String) : Bool :=
  matchesYMD s.data || matchesMDYSlash s.data || matchesMDYDash s.data

/-- `DataManager.parseValue`: empty → null; trim; strip matching
surrounding quotes; `!isNaN(value) && value !== ''` → `parseFloat(value)`;
else a matching date pattern → a `Date`; else the string itself. -/
def parseValue (raw : String) : JSValue :=
  if raw = "" then JSValue.null
  else
    let v := String.mk (stripQuotes (trimChars raw.data))
    if jsIsNaN (jsNumber v) = false ∧ v ≠ "" then JSValue.num (parseFloat v)
    else if isDate v then JSValue.date v
    else JSValue.str v

example : parseValue "30" = JSValue.num (JSNum.ofInt 30) := by decide
example : parseValue "Infinity" = JSValue.num JSNum.inf := by decide
example : parseValue "0x10" = JSValue.num (JSNum.ofInt 0) := by decide
example : jsNumber "0x10" = JSNum.ofInt 16 := by decide
example : parseValue "hello" = JSValue.str "hello" := by decide
example : parseValue "2023-01-01" = JSValue.date "2023-01-01" := by decide
example : parseValue "" = JSValue.null := by decide
example : parseValue "3.5e2" = JSValue.num (JSNum.ofInt 350) := by decide
example : parseValue "\"A\"" = JSValue.str "A" := by decide

/-- A row: column names mapped to values, in assignment order (later
assignments to the same key win, as for a JS object). -/
abbrev Row : Type := List (String × JSValue)

/-- A dataset: an ordered sequence of rows. -/
abbrev Dataset : Type := List Row

instance {ε α : Type} [DecidableEq ε] [DecidableEq α] : DecidableEq (Except ε α) :=
  fun a b =>
    match a, b with
    | Except.error x, Except.error y =>
      if h : x = y then isTrue (congrArg Except.error h)
      else isFalse (fun hc => h (by cases hc; rfl))
    | Except.ok x, Except.ok y =>
      if h : x = y then isTrue (congrArg Except.ok h)
      else isFalse (fun hc => h (by cases hc; rfl))
    | Except.error _, Except.ok _ => isFalse (fun hc => Except.noConfusion hc)
    | Except.ok _, Except.error _ => isFalse (fun hc => Except.noConfusion hc)

/-- JS property read `row[column]`: `none` models `undefined`. -/
def rowGet (r : Row) (c : String) : Option JSValue :=
  (r.reverse.find? (fun p => p.1 == c)).map Prod.snd

/-- `data.map(row => row[column]).filter(val => val != null)`:
the column's values with both `undefined` and `null` dropped. -/
def colValues (data : Dataset) (c : String) : List JSValue :=
  data.filterMap (fun r =>
    match rowGet r c with
    | some JSValue.null => none
    | some v => some v
    | none => none)

/-- `DataManager.parseCSVLine` body: walks the characters tracking the
in-quotes state, pushing `current.trim()` at each unquoted delimiter and
at the end; `""` inside quotes is an escaped quote.  The loop consumes
one or two characters per iteration; the fuel argument (one unit per
character, never exhausted when started with the character count) keeps
the recursion structural so that the kernel can evaluate it. -/
def parseCSVLineF (delim : Char) : ℕ → List Char → Bool → List Char → List String
  | _, [], _, current => [String.mk (trimChars current)]
  | 0, _ :: _, _, current => [String.mk (trimChars current)]
  | fuel + 1, c :: rest, inQuotes, current =>
    if c == dquoteChar then
      if inQuotes then
        match rest with
        | c2 :: rest2 =>
          if c2 == dquoteChar then parseCSVLineF delim fuel rest2 inQuotes (current ++ [dquoteChar])
          else parseCSVLineF delim fuel rest false current
        | [] => parseCSVLineF delim fuel [] false current
      else parseCSVLineF delim fuel rest true current
    else if c == delim && !inQuotes then
      String.mk (trimChars current) :: parseCSVLineF delim fuel rest inQuotes []
    else
      parseCSVLineF delim fuel rest inQuotes (current ++ [c])

/-- `DataManager.parseCSVLine`. -/
def parseCSVLine (delim : Char) (line : List Char) : List String :=
  parseCSVLineF delim line.length line false []

/-- `DataManager.parseCSV`: trim, split into lines, require a header and
at least one data row, then parse each line, dropping any line whose
value count differs from the header count. -/
def parseCSV (content : String) (delim : Char) : Except String Dataset :=
  match splitLines (trimChars content.data) with
  | [] => Except.error "CSV file must have at least a header and one data row"
  | [_] => Except.error "CSV file must have at least a header and one data row"
  | headerLine :: dataLines =>
    let headers := parseCSVLine delim headerLine
    Except.ok (dataLines.filterMap (fun line =>
      let values := parseCSVLine delim line
      if values.length = headers.length then
        some ((headers.zip values).map (fun p => (p.1, parseValue p.2)))
      else none))

/-- `DataManager.parseTSV`. -/
def parseTSV (content : String) : Except String Dataset := parseCSV content '\t'

/-- The header row a `parseCSV` call works with. -/
def csvHeaders (content : String) (delim : Char) : List String :=
  match splitLines (trimChars content.data) with
  | [] => []
  | l :: _ => parseCSVLine delim l

/-- `typeof val === 'number'`. -/
def isNumVal : JSValue → Bool
  | JSValue.num _ => true
  | _ => false

/-- `val instanceof Date`. -/
def isDateVal : JSValue → Bool
  | JSValue.date _ => true
  | _ => false

/-- `typeof val === 'string'`. -/
def isStrVal : JSValue → Bool
  | JSValue.str _ => true
  | _ => false

/-- The string carried by a string value (only applied under `isStrVal`). -/
def strOf : JSValue → String
  | JSValue.str s => s
  | _ => ""

/-- `[...new Set(values)]`: duplicates removed, first occurrences kept
in order. -/
def jsSetDedupAux (seen : List String) : List String → List String
  | [] => []
  | x :: xs =>
    if x ∈ seen then jsSetDedupAux seen xs
    else x :: jsSetDedupAux (x :: seen) xs

/-- `[...new Set(values)]`. -/
def jsSetDedup (l : List String) : List String := jsSetDedupAux [] l

/-- `toLowerCase()` (ASCII, character-wise). -/
def lowerStr (s : String) : String := String.mk (s.data.map Char.toLower)

/-- The fixed ordinal vocabularies of `DataManager.inferColumnType`. -/
def ordinalPatterns : List (List String) :=
  [["low", "medium", "high"],
   ["small", "medium", "large"],
   ["poor", "fair", "good", "excellent"],
   ["never", "rarely", "sometimes", "often", "always"]]

/-- The canonical-vocabulary rule of `inferColumnType`: some vocabulary
has every one of its words among the lowercased distinct values
(`pattern.every(p => lowerValues.includes(p))`). -/
def matchesOrdinalVocab (uniqueValues : List String) : Bool :=
  let lowerValues := uniqueValues.map lowerStr
  ordinalPatterns.any (fun pat => pat.all (fun p => lowerValues.contains p))

/-- `DataManager.inferColumnType`. -/
def inferColumnType (data : Dataset) (column : String) : String :=
  if data = [] then "nominal"
  else
    let values := colValues data column
    if values = [] then "nominal"
    else if (values.filter isNumVal).length = values.length then "quantitative"
    else if (values.filter isDateVal).length = values.length then "temporal"
    else
      let stringValues := values.filter isStrVal
      if stringValues.length = values.length then
        let uniqueValues := jsSetDedup (stringValues.map strOf)
        if 2 * uniqueValues.length < values.length ∧ uniqueValues.length < 20 then
          if matchesOrdinalVocab uniqueValues then "ordinal"
          else if uniqueValues.all (fun v => v.data.length ≤ 3) then "nominal"
          else "ordinal"
        else "nominal"
      else "nominal"

/-- `DragDropManager.validateMapping`, compatibility table. -/
def validMappings : List (String × List String) :=
  [("x", ["nominal", "ordinal", "quantitative", "temporal"]),
   ("y", ["quantitative"]),
   ("color", ["nominal", "ordinal", "quantitative"]),
   ("size", ["quantitative"])]

/-- `DragDropManager.validateMapping`: reject unless the channel's
accepted list contains the type; the nominal/ordinal-on-y special case
sits after that check, as in the source. -/
def validateMapping (encoding ty : String) : Bool :=
  match validMappings.lookup encoding with
  | none => false
  | some accepted =>
    if !(accepted.contains ty) then false
    else if encoding == "y" && (ty == "nominal" || ty == "ordinal") then true
    else true

example : validateMapping "y" "nominal" = false := by decide
example : validateMapping "x" "temporal" = true := by decide
example : parseCSV "name,value\nA,30\nB,80\n" ',' =
    Except.ok [[("name", JSValue.str "A"), ("value", JSValue.num (JSNum.ofInt 30))],
               [("name", JSValue.str "B"), ("value", JSValue.num (JSNum.ofInt 80))]] := by decide
example : inferColumnType [[("name", JSValue.str "A"), ("value", JSValue.num (JSNum.ofInt 30))],
               [("name", JSValue.str "B"), ("value", JSValue.num (JSNum.ofInt 80))]] "value" = "quantitative" := by decide
example : inferColumnType [[("name", JSValue.str "A"), ("value", JSValue.num (JSNum.ofInt 30))],
               [("name", JSValue.str "B"), ("value", JSValue.num (JSNum.ofInt 80))]] "name" = "nominal" := by decide

/-- A `(column, type)` pair assigned to an encoding channel. -/
structure FieldMapping where
  column : String
  type : String
deriving DecidableEq

/-- The four encoding-channel slots of the chart builder; `none` models a
`null`/unassigned channel. -/
structure Mappings where
  x : Option FieldMapping
  y : Option FieldMapping
  color : Option FieldMapping
  size : Option FieldMapping
deriving DecidableEq

/-- The `config` argument of `buildSpec`: optional title and pixel sizes
(`none` models an absent property). -/
structure ChartConfig where
  title : Option String
  width : Option ℕ
  height : Option ℕ
deriving DecidableEq

/-- JS truthiness for the `config.title || d` pattern: an absent or empty
title falls back to the default. -/
def titleOr (t : Option String) (d : String) : String :=
  match t with
  | some s => if s = "" then d else s
  | none => d

/-- The truthy title, if any. -/
def titleOpt (t : Option String) : Option String :=
  match t with
  | some s => if s = "" then none else some s
  | none => none

/-- JS truthiness for `config.width || 600`: an absent or zero number
falls back to the default. -/
def numOr (v : Option ℕ) (d : ℕ) : ℕ :=
  match v with
  | some n => if n = 0 then d else n
  | none => d

/-- `SpecBuilder.formatTitle`: underscores become spaces, a space is
inserted before each capital, the first character is upper-cased, and
the result is trimmed. -/
def formatTitle (columnName : String) : String :=
  let s1 := columnName.data.map (fun c => if c == '_' then ' ' else c)
  let s2 := s1.foldr (fun c acc => if c.isUpper then ' ' :: c :: acc else c :: acc) []
  let s3 := match s2 with
    | [] => []
    | c :: rest => c.toUpper :: rest
  String.mk (trimChars s3)

/-- An axis configuration produced by `SpecBuilder.buildAxisConfig`. -/
structure AxisConfig where
  grid : Bool
  tickCount : ℕ
  labelAngle : ℤ
  format : Option String
deriving DecidableEq

/-- `SpecBuilder.buildAxisConfig`. -/
def buildAxisConfig (axis ty : String) : AxisConfig :=
  let base : AxisConfig :=
    { grid := true, tickCount := if axis == "x" then 10 else 5, labelAngle := 0, format := none }
  if ty == "temporal" then { base with format := some "%b %Y", labelAngle := -45 }
  else if ty == "quantitative" then { base with format := some ".1f" }
  else if ty == "nominal" || ty == "ordinal" then
    (if axis == "x" then { base with labelAngle := -45 } else base)
  else base

/-- A color or size scale descriptor (`buildColorScale`/`buildSizeScale`). -/
structure ScaleConfig where
  scheme : Option String
  reverse : Option Bool
  range : Option (List ℕ)
  nice : Option Bool
deriving DecidableEq

/-- `SpecBuilder.buildColorScale`. -/
def buildColorScale (ty : String) : ScaleConfig :=
  if ty == "nominal" then { scheme := some "category10", reverse := none, range := none, nice := none }
  else if ty == "ordinal" then { scheme := some "blues", reverse := some false, range := none, nice := none }
  else if ty == "quantitative" then { scheme := some "viridis", reverse := some false, range := none, nice := none }
  else { scheme := some "category10", reverse := none, range := none, nice := none }

/-- `SpecBuilder.buildSizeScale`. -/
def buildSizeScale (ty : String) : ScaleConfig :=
  if ty == "quantitative" then { scheme := none, reverse := none, range := some [50, 400], nice := some true }
  else if ty == "ordinal" then { scheme := none, reverse := none, range := some [50, 200, 350], nice := some false }
  else { scheme := none, reverse := none, range := some [50, 200], nice := none }

/-- One channel of the encoding object emitted by `buildEncoding`. -/
structure EncodingChannel where
  field : String
  type : String
  title : String
  axis : Option AxisConfig
  scale : Option ScaleConfig
  legendTitle : Option String
deriving DecidableEq

/-- The encoding object emitted by `buildEncoding`: a key is present
exactly when the corresponding channel is mapped. -/
structure Encoding where
  x : Option EncodingChannel
  y : Option EncodingChannel
  color : Option EncodingChannel
  size : Option EncodingChannel
deriving DecidableEq

/-- `SpecBuilder.buildEncoding`. -/
def buildEncoding (mappings : Mappings) : Encoding :=
  { x := mappings.x.map (fun m =>
      { field := m.column, type := m.type, title := formatTitle m.column,
        axis := some (buildAxisConfig "x" m.type), scale := none, legendTitle := none }),
    y := mappings.y.map (fun m =>
      { field := m.column, type := m.type, title := formatTitle m.column,
        axis := some (buildAxisConfig "y" m.type), scale := none, legendTitle := none }),
    color := mappings.color.map (fun m =>
      { field := m.column, type := m.type, title := formatTitle m.column,
        axis := none, scale := some (buildColorScale m.type),
        legendTitle := some (formatTitle m.column) }),
    size := mappings.size.map (fun m =>
      { field := m.column, type := m.type, title := formatTitle m.column,
        axis := none, scale := some (buildSizeScale m.type),
        legendTitle := some (formatTitle m.column) }) }

/-- The mark descriptor emitted by `buildMark`. -/
structure Mark where
  type : String
  tooltip : Bool
  size : Option ℕ
  point : Option Bool
  stroke : Option String
  strokeWidth : Option JSRat
deriving DecidableEq

/-- `SpecBuilder.buildMark`: the chart-type table, the fallback for
unknown types, and the stroke styling added when color is mapped. -/
def buildMark (chartType : String) (mappings : Mappings) : Mark :=
  let base : Mark :=
    if chartType == "bar" then
      { type := "bar", tooltip := true, size := none, point := none, stroke := none, strokeWidth := none }
    else if chartType == "scatter" then
      { type := "circle", tooltip := true, size := some 60, point := none, stroke := none, strokeWidth := none }
    else if chartType == "line" then
      { type := "line", tooltip := true, size := none, point := some true, stroke := none, strokeWidth := none }
    else if chartType == "area" then
      { type := "area", tooltip := true, size := none, point := none, stroke := none, strokeWidth := none }
    else if chartType == "histogram" then
      { type := "bar", tooltip := true, size := none, point := none, stroke := none, strokeWidth := none }
    else if chartType == "boxplot" then
      { type := "boxplot", tooltip := true, size := none, point := none, stroke := none, strokeWidth := none }
    else
      { type := chartType, tooltip := true, size := none, point := none, stroke := none, strokeWidth := none }
  match mappings.color with
  | some _ => { base with stroke := some "white", strokeWidth := some ⟨1, 2⟩ }
  | none => base

/-- The title block added by `buildSpec` when a title is configured. -/
structure TitleBlock where
  text : String
  anchor : String
  fontSize : ℕ
  fontWeight : String
deriving DecidableEq

/-- The fixed `spec.config` object of `SpecBuilder.buildConfig`. -/
structure SpecGlobalConfig where
  viewContinuousWidth : ℕ
  viewContinuousHeight : ℕ
  axisLabelFontSize : ℕ
  axisTitleFontSize : ℕ
  axisTitleFontWeight : String
  legendLabelFontSize : ℕ
  legendTitleFontSize : ℕ
  legendTitleFontWeight : String
  titleFontSize : ℕ
  titleFontWeight : String
  titleAnchor : String
deriving DecidableEq

/-- `SpecBuilder.buildConfig` (independent of the chart type). -/
def buildConfig (_chartType : String) : SpecGlobalConfig :=
  { viewContinuousWidth := 400, viewContinuousHeight := 300,
    axisLabelFontSize := 11, axisTitleFontSize := 12, axisTitleFontWeight := "bold",
    legendLabelFontSize := 11, legendTitleFontSize := 12, legendTitleFontWeight := "bold",
    titleFontSize := 16, titleFontWeight := "bold", titleAnchor := "start" }

/-- The Vega-Lite specification object returned by `buildSpec`. -/
structure VLSpec where
  schema : String
  description : String
  dataValues : Dataset
  mark : Mark
  encoding : Encoding
  width : ℕ
  height : ℕ
  title : Option TitleBlock
  config : SpecGlobalConfig
deriving DecidableEq

/-- `SpecBuilder.buildSpec`: assembles the specification from its parts,
with no validation of the dataset or the mappings. -/
def buildSpec (data : Dataset) (chartType : String) (mappings : Mappings)
    (config : ChartConfig) : VLSpec :=
  { schema := "https://vega.github.io/schema/vega-lite/v5.json",
    description := titleOr config.title (chartType ++ " chart"),
    dataValues := data,
    mark := buildMark chartType mappings,
    encoding := buildEncoding mappings,
    width := numOr config.width 600,
    height := numOr config.height 400,
    title := (titleOpt config.title).map (fun t =>
      { text := t, anchor := "start", fontSize := 16, fontWeight := "bold" }),
    config := buildConfig chartType }

/-- One entry of `buildEncodingMetadata`. -/
structure EncodingMeta where
  field : String
  type : String
  title : String
deriving DecidableEq

/-- `SpecBuilder.buildEncodingMetadata`: for each populated channel, in
the object's insertion order x, y, color, size. -/
def buildEncodingMetadata (m : Mappings) : List (String × EncodingMeta) :=
  ([("x", m.x), ("y", m.y), ("color", m.color), ("size", m.size)]).filterMap
    (fun p => p.2.map (fun fm => (p.1, ⟨fm.column, fm.type, formatTitle fm.column⟩)))

/-- The number of populated channels
(`Object.keys(mappings).filter(k => mappings[k]).length`). -/
def countMappings (m : Mappings) : ℕ :=
  ([m.x, m.y, m.color, m.size].filter Option.isSome).length

/-- The full chart specification returned by `buildFullSpec`.  Padding is
`{top, right, bottom, left}`. -/
structure FullSpec where
  id : String
  version : String
  metadataCreated : String
  metadataTitle : String
  metadataDescription : String
  dataSource : String
  dataFormat : String
  dataValues : Dataset
  dataName : String
  chartType : String
  chartEncoding : List (String × EncodingMeta)
  chartWidth : ℕ
  chartHeight : ℕ
  chartPadding : ℕ × ℕ × ℕ × ℕ
  chartBackground : String
  chartTitleText : String
  chartTitleFontSize : ℕ
  chartTitleAnchor : String
  interactionsTooltip : Bool
  interactionsZoom : Bool
  interactionsBrush : Bool
  interactionsClick : String
  vegaLiteSpec : VLSpec
deriving DecidableEq

/-- `SpecBuilder.buildFullSpec`.  The generated chart id
(`Date.now()` plus a random suffix) and the creation timestamp come from
the clock and the random generator; they are passed in as parameters
`id` and `created`, which no verified property depends on. -/
def buildFullSpec (id created : String) (data : Dataset) (chartType : String)
    (mappings : Mappings) (config : ChartConfig) : FullSpec :=
  { id := id,
    version := "1.0",
    metadataCreated := created,
    metadataTitle := titleOr config.title "Untitled Chart",
    metadataDescription :=
      chartType ++ " chart with " ++ toString (countMappings mappings) ++ " encodings",
    dataSource := "inline",
    dataFormat := "json",
    dataValues := data,
    dataName := "chart_data",
    chartType := chartType,
    chartEncoding := buildEncodingMetadata mappings,
    chartWidth := numOr config.width 600,
    chartHeight := numOr config.height 400,
    chartPadding := (20, 30, 40, 50),
    chartBackground := "#ffffff",
    chartTitleText := titleOr config.title "",
    chartTitleFontSize := 16,
    chartTitleAnchor := "middle",
    interactionsTooltip := true,
    interactionsZoom := false,
    interactionsBrush := false,
    interactionsClick := "none",
    vegaLiteSpec := buildSpec data chartType mappings config }

/-- The guard of `ChartBuilder.updateChart` (src/chart-builder.js): the
spec builder is invoked only when a dataset has been loaded and both the
x and the y channels are mapped. -/
def updateChartGuard (currentData : Option Dataset) (m : Mappings) : Bool :=
  currentData.isSome && m.x.isSome && m.y.isSome

/-! ## Helper lemmas -/

theorem length_filter_eq_iff {α : Type} (p : α → Bool) (l : List α) :
    (l.filter p).length = l.length ↔ ∀ a ∈ l, p a = true := by
  rw [← List.filter_eq_self (p := p) (l := l)]
  constructor
  · intro h
    exact List.Sublist.eq_of_length (List.filter_sublist l) h
  · intro h
    rw [h]

theorem not_all_of_mem_str {l : List JSValue} {v : JSValue}
    (hv : v ∈ l) (hs : isStrVal v = true) :
    ¬ (∀ a ∈ l, isNumVal a = true) ∧ ¬ (∀ a ∈ l, isDateVal a = true) := by
  constructor
  · intro hall
    have := hall v hv
    cases v <;> simp [isStrVal, isNumVal] at hs this
  · intro hall
    have := hall v hv
    cases v <;> simp [isStrVal, isDateVal] at hs this

/-- Two string lists with the same members (the claim's reading of a
"set that exactly matches a vocabulary"). -/
def sameStringSet (a b : List String) : Prop :=
  (∀ x ∈ a, x ∈ b) ∧ (∀ x ∈ b, x ∈ a)

instance (a b : List String) : Decidable (sameStringSet a b) := by
  unfold sameStringSet
  infer_instance

/-! ## The claims -/

/-- C1: the mapping-validation compatibility table as the code actually
evaluates it.  The spec's permissive y-rule is dead code in the source:
`validateMapping('y', t)` returns `false` (reject) for nominal and
ordinal `t` because the accepted-list check `['quantitative']` rejects
them before the special case can run, although the special case's own
comment says such drops are allowed.  Every other entry of the claimed
table matches the code. -/
theorem c1_validateMapping_table :
    validateMapping "y" "nominal" = false ∧
    validateMapping "y" "ordinal" = false ∧
    validateMapping "y" "quantitative" = true ∧
    validateMapping "y" "temporal" = false ∧
    validateMapping "size" "quantitative" = true ∧
    validateMapping "size" "nominal" = false ∧
    validateMapping "size" "ordinal" = false ∧
    validateMapping "size" "temporal" = false ∧
    validateMapping "x" "nominal" = true ∧
    validateMapping "x" "ordinal" = true ∧
    validateMapping "x" "quantitative" = true ∧
    validateMapping "x" "temporal" = true ∧
    validateMapping "color" "nominal" = true ∧
    validateMapping "color" "ordinal" = true ∧
    validateMapping "color" "quantitative" = true ∧
    validateMapping "color" "temporal" = false := by decide

/-- C2 counterexample: a distinct set that strictly contains the
vocabulary `{low, medium, high}` (it also holds `zzzz`) does trigger the
canonical-vocabulary rule, although it exactly matches none of the fixed
vocabularies — the source checks `pattern.every(p =>
lowerValues.includes(p))`, a subset test on the vocabulary, not an exact
match of the distinct set. -/
theorem c2_superset_counterexample :
    matchesOrdinalVocab ["low", "medium", "high", "zzzz"] = true ∧
    ∀ pat ∈ ordinalPatterns,
      ¬ sameStringSet (["low", "medium", "high", "zzzz"].map lowerStr) pat := by decide

/-- C2 (amended): in the all-strings branch with a small distinct set,
the canonical-vocabulary rule fires whenever every word of one of the
fixed vocabularies occurs among the lowercased distinct values — a
distinct set that strictly contains a vocabulary also triggers it — and
the column is then classified ordinal. -/
theorem c2_vocab_rule_is_superset_check (data : Dataset) (column : String)
    (hstr : ∀ v ∈ colValues data column, isStrVal v = true)
    (hne : colValues data column ≠ [])
    (hcnt : 2 * (jsSetDedup (((colValues data column).filter isStrVal).map strOf)).length
              < (colValues data column).length)
    (hcap : (jsSetDedup (((colValues data column).filter isStrVal).map strOf)).length < 20)
    (hvocab : ∃ pat ∈ ordinalPatterns, ∀ p ∈ pat,
        p ∈ (jsSetDedup (((colValues data column).filter isStrVal).map strOf)).map lowerStr) :
    inferColumnType data column = "ordinal" := by
  have hdata : ¬ (data = []) := by
    intro h
    subst h
    exact hne rfl
  obtain ⟨v, hv⟩ := List.exists_mem_of_ne_nil _ hne
  obtain ⟨hnotnum, hnotdate⟩ := not_all_of_mem_str hv (hstr v hv)
  have h3 : ¬ (((colValues data column).filter isNumVal).length = (colValues data column).length) := by
    rw [length_filter_eq_iff]
    exact hnotnum
  have h4 : ¬ (((colValues data column).filter isDateVal).length = (colValues data column).length) := by
    rw [length_filter_eq_iff]
    exact hnotdate
  have h5 : ((colValues data column).filter isStrVal).length = (colValues data column).length := by
    rw [length_filter_eq_iff]
    exact hstr
  have hmv : matchesOrdinalVocab
      (jsSetDedup (((colValues data column).filter isStrVal).map strOf)) = true := by
    unfold matchesOrdinalVocab
    rw [List.any_eq_true]
    obtain ⟨pat, hpat, hall⟩ := hvocab
    refine ⟨pat, hpat, ?_⟩
    rw [List.all_eq_true]
    intro p hp
    exact List.elem_iff.mpr (hall p hp)
  simp only [inferColumnType]
  rw [if_neg hdata, if_neg hne, if_neg h3, if_neg h4, if_pos h5, if_pos ⟨hcnt, hcap⟩,
      if_pos hmv]

/-- Nine rows over a column whose distinct values strictly contain the
vocabulary `{low, medium, high}`. -/
def vocabSupersetDataset : Dataset :=
  [[("c", JSValue.str "low")], [("c", JSValue.str "low")], [("c", JSValue.str "low")],
   [("c", JSValue.str "medium")], [("c", JSValue.str "medium")],
   [("c", JSValue.str "high")], [("c", JSValue.str "high")],
   [("c", JSValue.str "zzzz")], [("c", JSValue.str "zzzz")]]

/-- Witness for `c2_vocab_rule_is_superset_check` at a concrete dataset. -/
theorem c2_vocab_rule_witness : inferColumnType vocabSupersetDataset "c" = "ordinal" :=
  c2_vocab_rule_is_superset_check vocabSupersetDataset "c" (by decide) (by decide)
    (by decide) (by decide) ⟨["low", "medium", "high"], by decide, by decide⟩

/-- C3 counterexample: `"Infinity"` and `"0x10"` are non-empty, match no
date pattern, and are not full decimal representations of finite
numbers, yet `parseValue` returns numbers for both — `!isNaN` uses JS
`Number` coercion, which accepts `Infinity` (non-finite) and hex
literals, and the value then comes from `parseFloat` (`Infinity` and
`0`, respectively). -/
theorem c3_counterexample :
    isDate "Infinity" = false ∧ isDate "0x10" = false ∧
    parseValue "Infinity" = JSValue.num JSNum.inf ∧
    parseValue "0x10" = JSValue.num (JSNum.ofInt 0) := by decide

/-- C3 (amended): a raw cell that is non-empty, whose trimmed
quote-stripped form is NaN under JS `Number` coercion and matches none
of the three date patterns, comes back as the stripped string itself.
Strings such as `"Infinity"` or `"0x10"` coerce to non-NaN numbers and
come back numeric instead. -/
theorem c3_nan_strings_stay_strings (raw : String) (hne : raw ≠ "")
    (hnan : jsIsNaN (jsNumber (String.mk (stripQuotes (trimChars raw.data)))) = true)
    (hdate : isDate (String.mk (stripQuotes (trimChars raw.data))) = false) :
    parseValue raw = JSValue.str (String.mk (stripQuotes (trimChars raw.data))) := by
  unfold parseValue
  rw [if_neg hne]
  rw [if_neg (by simp [hnan])]
  rw [if_neg (by simp [hdate])]

/-- Witness for `c3_nan_strings_stay_strings` at `"hello"`. -/
theorem c3_nan_strings_witness :
    "hello" ≠ "" ∧
    parseValue "hello" = JSValue.str (String.mk (stripQuotes (trimChars "hello".data))) :=
  ⟨by decide, c3_nan_strings_stay_strings "hello" (by decide) (by decide) (by decide)⟩

/-- Two rows whose cells are strings matching the `YYYY-MM-DD` date
pattern, as a JSON ingest would hold them. -/
def jsonDateStringsDataset : Dataset :=
  [[("d", JSValue.str "2023-01-01")], [("d", JSValue.str "2023-01-02")]]

/-- C4 counterexample: a column whose every value matches a recognized
date pattern but is held as a string is classified nominal, not
temporal — the inferrer only counts `instanceof Date` values, and
date-pattern strings fall through to the string branch. -/
theorem c4_date_strings_not_temporal :
    (∀ v ∈ colValues jsonDateStringsDataset "d",
        isStrVal v = true ∧ isDate (strOf v) = true) ∧
    inferColumnType jsonDateStringsDataset "d" = "nominal" := by decide

/-- C4 (amended): when every value of the column is a `Date` object the
inferrer returns temporal; cells held as date-pattern strings are not
recognized and are classified by the string branch instead. -/
theorem c4_date_objects_temporal (data : Dataset) (column : String)
    (hne : colValues data column ≠ [])
    (hdates : ∀ v ∈ colValues data column, isDateVal v = true) :
    inferColumnType data column = "temporal" := by
  have hdata : ¬ (data = []) := by
    intro h
    subst h
    exact hne rfl
  obtain ⟨v, hv⟩ := List.exists_mem_of_ne_nil _ hne
  have hnotnum : ¬ (((colValues data column).filter isNumVal).length
      = (colValues data column).length) := by
    rw [length_filter_eq_iff]
    intro hall
    have h1 := hall v hv
    have h2 := hdates v hv
    cases v <;> simp [isNumVal, isDateVal] at h1 h2
  have hdlen : ((colValues data column).filter isDateVal).length
      = (colValues data column).length := by
    rw [length_filter_eq_iff]
    exact hdates
  simp only [inferColumnType]
  rw [if_neg hdata, if_neg hne, if_neg hnotnum, if_pos hdlen]

/-- A one-row dataset holding a `Date` object. -/
def dateObjectDataset : Dataset := [[("d", JSValue.date "2023-01-01")]]

/-- Witness for `c4_date_objects_temporal` at a concrete dataset. -/
theorem c4_date_objects_witness : inferColumnType dateObjectDataset "d" = "temporal" :=
  c4_date_objects_temporal dateObjectDataset "d" (by decide) (by decide)

/-- C5: `buildSpec` validates nothing and cannot fail: it is a total
function of its four inputs, and for every dataset (the empty one
included), chart type, mapping record (channels may all be absent) and
config it returns a specification that echoes the dataset and has an
encoding entry exactly for each populated channel.  The
required-channel check lives in the caller: `ChartBuilder.updateChart`
invokes the builder only when data is loaded and both x and y are
mapped. -/
theorem c5_buildSpec_no_validation (data : Dataset) (chartType : String)
    (m : Mappings) (cfg : ChartConfig) :
    (buildSpec data chartType m cfg).dataValues = data ∧
    ((buildSpec data chartType m cfg).encoding.x).isNone = m.x.isNone ∧
    ((buildSpec data chartType m cfg).encoding.y).isNone = m.y.isNone ∧
    ((buildSpec data chartType m cfg).encoding.color).isNone = m.color.isNone ∧
    ((buildSpec data chartType m cfg).encoding.size).isNone = m.size.isNone ∧
    updateChartGuard none m = false ∧
    updateChartGuard (some data) m = (m.x.isSome && m.y.isSome) := by
  refine ⟨rfl, ?_, ?_, ?_, ?_, rfl, rfl⟩
  · cases hx : m.x <;> simp [buildSpec, buildEncoding, hx]
  · cases hy : m.y <;> simp [buildSpec, buildEncoding, hy]
  · cases hc : m.color <;> simp [buildSpec, buildEncoding, hc]
  · cases hs : m.size <;> simp [buildSpec, buildEncoding, hs]

/-- The CSV text of the parsing scenario. -/
def scenarioCSV : String := "name,value\nA,30\nB,80\n"

/-- The dataset the scenario CSV parses to. -/
def scenarioDataset : Dataset :=
  [[("name", JSValue.str "A"), ("value", JSValue.num (JSNum.ofInt 30))],
   [("name", JSValue.str "B"), ("value", JSValue.num (JSNum.ofInt 80))]]

/-- C6: parsing `"name,value\nA,30\nB,80\n"` yields exactly the two-row
dataset with numeric value cells, on which the inferrer returns
quantitative for `value` and nominal for `name`. -/
theorem c6_csv_scenario :
    parseCSV scenarioCSV ',' = Except.ok scenarioDataset ∧
    inferColumnType scenarioDataset "value" = "quantitative" ∧
    inferColumnType scenarioDataset "name" = "nominal" := by decide

/-- C7: for any non-empty dataset, config, and mapped column pair, the
bar-chart specification carries the x column's name in
`encoding.x.field` and the y column's name in `encoding.y.field`. -/
theorem c7_bar_encoding_fields (data : Dataset) (hne : data ≠ [])
    (cfg : ChartConfig) (colA colB : FieldMapping) :
    ((buildSpec data "bar" ⟨some colA, some colB, none, none⟩ cfg).encoding.x).map
        (fun e => e.field) = some colA.column ∧
    ((buildSpec data "bar" ⟨some colA, some colB, none, none⟩ cfg).encoding.y).map
        (fun e => e.field) = some colB.column := by
  exact ⟨rfl, rfl⟩

/-- Witness for `c7_bar_encoding_fields` at a concrete dataset and pair. -/
theorem c7_bar_encoding_witness :
    scenarioDataset ≠ [] ∧
    ((buildSpec scenarioDataset "bar"
        ⟨some ⟨"name", "nominal"⟩, some ⟨"value", "quantitative"⟩, none, none⟩
        ⟨none, none, none⟩).encoding.x).map (fun e => e.field) = some "name" ∧
    ((buildSpec scenarioDataset "bar"
        ⟨some ⟨"name", "nominal"⟩, some ⟨"value", "quantitative"⟩, none, none⟩
        ⟨none, none, none⟩).encoding.y).map (fun e => e.field) = some "value" := by
  refine ⟨by decide, ?_, ?_⟩
  · exact (c7_bar_encoding_fields scenarioDataset (by decide) ⟨none, none, none⟩
      ⟨"name", "nominal"⟩ ⟨"value", "quantitative"⟩).1
  · exact (c7_bar_encoding_fields scenarioDataset (by decide) ⟨none, none, none⟩
      ⟨"name", "nominal"⟩ ⟨"value", "quantitative"⟩).2

/-- C8: a full specification for chart type `scatter` with x and y both
mapped to quantitative columns (no other channel mapped) carries the
mark descriptor `{type: circle, tooltip: true, size: 60}` — tooltip
enabled and the default point size, with no color-driven stroke. -/
theorem c8_scatter_full_spec_mark (chartId created : String) (data : Dataset)
    (colA colB : String) (cfg : ChartConfig) :
    ((buildFullSpec chartId created data "scatter"
        ⟨some ⟨colA, "quantitative"⟩, some ⟨colB, "quantitative"⟩, none, none⟩
        cfg).vegaLiteSpec).mark
      = { type := "circle", tooltip := true, size := some 60,
          point := none, stroke := none, strokeWidth := none } := rfl

/-- C9: every dataset `parseCSV` (and, with the tab delimiter,
`parseTSV`) returns satisfies: each surviving row's key list is exactly
the header list — ragged lines are dropped whole, never padded or
truncated. -/
theorem c9_rows_share_header_keys (content : String) (delim : Char) (d : Dataset)
    (h : parseCSV content delim = Except.ok d) :
    ∀ r ∈ d, r.map Prod.fst = csvHeaders content delim := by
  unfold parseCSV at h
  unfold csvHeaders
  intro r hr
  cases hsplit : splitLines (trimChars content.data) with
  | nil =>
    rw [hsplit] at h
    exact absurd h (by simp)
  | cons headerLine dataLines =>
    rw [hsplit] at h
    cases dataLines with
    | nil => exact absurd h (by simp)
    | cons l ls =>
      have hd : (l :: ls).filterMap (fun line =>
          let values := parseCSVLine delim line
          if values.length = (parseCSVLine delim headerLine).length then
            some (((parseCSVLine delim headerLine).zip values).map
              (fun p => (p.1, parseValue p.2)))
          else none) = d := by
        injection h
      rw [← hd] at hr
      obtain ⟨line, _, hline⟩ := List.mem_filterMap.mp hr
      simp only at hline
      by_cases hlen : (parseCSVLine delim line).length = (parseCSVLine delim headerLine).length
      · rw [if_pos hlen] at hline
        have hr2 : r = ((parseCSVLine delim headerLine).zip (parseCSVLine delim line)).map
            (fun p => (p.1, parseValue p.2)) := (Option.some.inj hline).symm
        subst hr2
        rw [List.map_map]
        have : (Prod.fst ∘ fun p : String × String => (p.1, parseValue p.2)) = Prod.fst := rfl
        rw [this]
        exact List.map_fst_zip _ _ (le_of_eq hlen.symm)
      · rw [if_neg hlen] at hline
        exact absurd hline (by simp)

/-- Witness for `c9_rows_share_header_keys` at the scenario CSV. -/
theorem c9_rows_share_header_witness :
    parseCSV scenarioCSV ',' = Except.ok scenarioDataset ∧
    ∀ r ∈ scenarioDataset, r.map Prod.fst = csvHeaders scenarioCSV ',' :=
  ⟨by decide, fun r hr =>
    c9_rows_share_header_keys scenarioCSV ',' scenarioDataset (by decide) r hr⟩

/-- C10: a column whose non-null values mix runtime kinds — neither all
numbers, nor all dates, nor all strings — is classified nominal. -/
theorem c10_mixed_kinds_nominal (data : Dataset) (column : String)
    (hne : colValues data column ≠ [])
    (hnum : ¬ ∀ v ∈ colValues data column, isNumVal v = true)
    (hdate : ¬ ∀ v ∈ colValues data column, isDateVal v = true)
    (hstr : ¬ ∀ v ∈ colValues data column, isStrVal v = true) :
    inferColumnType data column = "nominal" := by
  have hdata : ¬ (data = []) := by
    intro h
    subst h
    exact hne rfl
  have h3 : ¬ (((colValues data column).filter isNumVal).length
      = (colValues data column).length) := by
    rw [length_filter_eq_iff]
    exact hnum
  have h4 : ¬ (((colValues data column).filter isDateVal).length
      = (colValues data column).length) := by
    rw [length_filter_eq_iff]
    exact hdate
  have h5 : ¬ (((colValues data column).filter isStrVal).length
      = (colValues data column).length) := by
    rw [length_filter_eq_iff]
    exact hstr
  simp only [inferColumnType]
  rw [if_neg hdata, if_neg hne, if_neg h3, if_neg h4, if_neg h5]

/-- A column holding one number and one string. -/
def mixedKindsDataset : Dataset :=
  [[("a", JSValue.num (JSNum.ofInt 1))], [("a", JSValue.str "x")]]

/-- Witness for `c10_mixed_kinds_nominal` at a concrete dataset. -/
theorem c10_mixed_kinds_witness : inferColumnType mixedKindsDataset "a" = "nominal" :=
  c10_mixed_kinds_nominal mixedKindsDataset "a" (by decide) (by decide) (by decide)
    (by decide)
